import Mathlib

/-!
Shallow embedding of the InvestorBriefingExtractor pipeline
(src/InvestorBriefingExtractor-AI.py) and proofs of the frozen claims.

Modelling choices:
* Decoded field values are either strings or numbers (`Value`); Python
  truthiness on these two shapes is non-empty for strings and non-zero for
  numbers.  The three text fields (`briefing_id`, `date`, `briefing_text`)
  are modelled as optional strings (all inputs the claims touch decode them
  as strings); `key_metrics` keeps both shapes since JSON delivers native
  numbers and CSV delivers numeric strings.
* Python floats are modelled as rationals (`Rat`); every numeric example in
  the claims is exactly representable, so the rounding of binary64 never
  separates the model from the source on the inputs considered here.
* `float(...)` on a string is modelled by `pyParseFloat`, covering the
  decimal forms (optional surrounding whitespace, sign, digits, fraction,
  exponent) that the validator can meet on the claimed inputs.
* `re.match(r"^\d{4}-\d{2}-\d{2}$", s)` is modelled in `dateRegexMatch`,
  including the CPython quirk that the dollar anchor also matches just
  before one trailing newline.
* `\b`-bounded case-insensitive keyword matching is modelled by counting
  every position where the keyword occurs with non-word (ASCII) neighbours;
  for an all-letter keyword such matches can never overlap, so the count
  agrees with the non-overlapping scan of `re.finditer`.
-/

/-- A decoded field value: a string or a number, as the decoder produced it. -/
inductive Value where
  | str (s : String)
  | num (q : Rat)
  deriving DecidableEq, Repr

/-- Python truthiness restricted to the two decoded shapes:
a string is truthy when non-empty, a number when non-zero. -/
def Value.truthy : Value → Bool
  | .str s => s != ""
  | .num q => q != 0

/-- Digits of an ASCII numeral folded into a natural number. -/
def digitsVal (cs : List Char) : Nat :=
  cs.foldl (fun a c => a * 10 + (c.toNat - 48)) 0

/-- Exponent suffix of a Python float literal: empty, or an e/E followed by an
optionally signed digit run, scaling the mantissa by the matching power of 10. -/
def parseExpSuffix (cs : List Char) (m : Rat) : Option Rat :=
  match cs with
  | [] => some m
  | c :: rest =>
    if c == 'e' || c == 'E' then
      let (neg, rest2) :=
        match rest with
        | '+' :: r => (false, r)
        | '-' :: r => (true, r)
        | r => (false, r)
      let (ds, rest3) := rest2.span Char.isDigit
      if ds.isEmpty || !rest3.isEmpty then none
      else some (if neg then m / (10 : Rat) ^ digitsVal ds
                 else m * (10 : Rat) ^ digitsVal ds)
    else none

/-- Unsigned part of a Python float literal: digits, optionally a decimal
point with further digits, optionally an exponent; at least one mantissa
digit is required. -/
def parseUnsignedFloat (cs : List Char) : Option Rat :=
  let (intPart, rest) := cs.span Char.isDigit
  match rest with
  | '.' :: rest2 =>
      let (fracPart, rest3) := rest2.span Char.isDigit
      if intPart.isEmpty && fracPart.isEmpty then none
      else
        let m : Rat := (digitsVal intPart : Rat)
          + (digitsVal fracPart : Rat) / (10 : Rat) ^ fracPart.length
        parseExpSuffix rest3 m
  | _ =>
      if intPart.isEmpty then none
      else parseExpSuffix rest (digitsVal intPart : Rat)

/-- Model of the Python builtin `float(str)` on finite decimal literals:
surrounding ASCII whitespace is ignored, then an optionally signed decimal
number is parsed; anything else raises ValueError, modelled as `none`. -/
def pyParseFloat (s : String) : Option Rat :=
  let core := (s.toList.dropWhile Char.isWhitespace).reverse.dropWhile
      Char.isWhitespace |>.reverse
  match core with
  | '+' :: rest => parseUnsignedFloat rest
  | '-' :: rest => (parseUnsignedFloat rest).map Neg.neg
  | _ => parseUnsignedFloat core

/-- Model of `float(value)`: a native number converts to itself, a string is
parsed as a decimal literal. -/
def Value.pyFloat : Value → Option Rat
  | .num q => some q
  | .str s => pyParseFloat s

/-- One decoded briefing record, keyed by the four field names the pipeline
reads; `none` models an absent key. -/
structure Record where
  briefing_id : Option String := none
  date : Option String := none
  briefing_text : Option String := none
  key_metrics : Option Value := none
  deriving DecidableEq, Repr

/-- A validation diagnostic, carrying the 1-based record index and the
field(s) named by the corresponding error message. -/
inductive Diag where
  | missing_field (idx : Nat) (fields : List String)
  | invalid_format (idx : Nat) (field : String)
  | invalid_type (idx : Nat) (field : String)
  deriving DecidableEq, Repr

/-- The three required fields, in the order the validator iterates them. -/
def requiredFields : List String := ["briefing_id", "date", "briefing_text"]

/-- Test `field in record and record[field]` for a required (string-valued) field. -/
def requiredPresent (r : Record) : String → Bool
  | "briefing_id" => match r.briefing_id with | some s => s != "" | none => false
  | "date" => match r.date with | some s => s != "" | none => false
  | "briefing_text" => match r.briefing_text with | some s => s != "" | none => false
  | _ => false

/-- The `missing_fields` list the validator accumulates for one record. -/
def missingFields (r : Record) : List String :=
  requiredFields.filter (fun f => ! requiredPresent r f)

/-- The regex shape layer of `_is_valid_date`: ten characters laid out as
four digits, a dash, two digits, a dash, two digits. -/
def dateShapeCore : List Char → Bool
  | [a, b, c, d, e, f, g, h, i, j] =>
      a.isDigit && b.isDigit && c.isDigit && d.isDigit && e == '-' &&
      f.isDigit && g.isDigit && h == '-' && i.isDigit && j.isDigit
  | _ => false

/-- Model of `re.match(r"^\d{4}-\d{2}-\d{2}$", s)` as a boolean: the shape above,
where the dollar anchor also tolerates one trailing newline. -/
def dateRegexMatch (s : String) : Bool :=
  let cs := s.toList
  dateShapeCore cs || (cs.getLast? == some '\n' && dateShapeCore cs.dropLast)

/-- Gregorian leap-year rule used by the calendar layer. -/
def isLeapYear (y : Nat) : Bool :=
  y % 4 == 0 && (y % 100 != 0 || y % 400 == 0)

/-- Number of days in a month of a given year. -/
def daysInMonth (y m : Nat) : Nat :=
  if m == 2 then (if isLeapYear y then 29 else 28)
  else if m == 4 || m == 6 || m == 9 || m == 11 then 30
  else 31

/-- The calendar layer of `_is_valid_date`:
`datetime.datetime.strptime(s, "%Y-%m-%d")` succeeds exactly when the string
is a dash-separated all-digit date whose year is at least 1 (datetime has no
year 0) and whose month and day fall in the calendar range. -/
def strptimeYmdOk (s : String) : Bool :=
  match s.toList with
  | [a, b, c, d, e, f, g, h, i, j] =>
      if a.isDigit && b.isDigit && c.isDigit && d.isDigit && e == '-' &&
         f.isDigit && g.isDigit && h == '-' && i.isDigit && j.isDigit then
        let y := digitsVal [a, b, c, d]
        let m := digitsVal [f, g]
        let dd := digitsVal [i, j]
        decide (1 ≤ y) && decide (1 ≤ m) && decide (m ≤ 12) &&
        decide (1 ≤ dd) && decide (dd ≤ daysInMonth y m)
      else false
  | _ => false

/-- Model of `_is_valid_date`: the regex shape check, then the strptime calendar
check; failing the first returns early. -/
def isValidDate (s : String) : Bool :=
  if ! dateRegexMatch s then false
  else strptimeYmdOk s

/-- The date check of the validator loop body: one `invalid_format`
diagnostic when `_is_valid_date` rejects.  The `getD` default is unreachable
here because the check only runs after `date` was found present and
non-empty. -/
def dateDiag (i : Nat) (r : Record) : List Diag :=
  if ! isValidDate (r.date.getD "") then [Diag.invalid_format i "date"] else []

/-- The key_metrics check of the validator loop body: skipped when the field
is absent or falsy; otherwise `float` failure is `invalid_type` and a
non-positive parse is `invalid_format`. -/
def metricDiag (i : Nat) (r : Record) : List Diag :=
  match r.key_metrics with
  | some v =>
      if v.truthy then
        match v.pyFloat with
        | some x => if x ≤ 0 then [Diag.invalid_format i "key_metrics"] else []
        | none => [Diag.invalid_type i "key_metrics"]
      else []
  | none => []

/-- The validator loop body for record `i`: a non-empty missing-fields list
emits a single combined `missing_field` diagnostic and `continue`s past the
date and key_metrics checks; otherwise both checks run in order. -/
def validateRecord (i : Nat) (r : Record) : List Diag :=
  if (missingFields r).isEmpty then dateDiag i r ++ metricDiag i r
  else [Diag.missing_field i (missingFields r)]

/-- Model of `enumerate(records, 1)`. -/
def enumFrom (i : Nat) : List α → List (Nat × α)
  | [] => []
  | a :: as => (i, a) :: enumFrom (i + 1) as

/-- Model of `validate_data` restricted to its decision content: the diagnostics of
all records in input order, and the overall flag
`len(error_messages) == 0`. -/
def validateData (rs : List Record) : Bool × List Diag :=
  let diags := (enumFrom 1 rs).flatMap (fun p => validateRecord p.1 p.2)
  (diags.isEmpty, diags)

/-- The fixed keyword vocabulary `self.expected_keywords`. -/
def expected_keywords : List String :=
  ["growth", "risk", "innovation", "market", "confidence",
   "investment", "strategic", "opportunity", "challenges", "expansion"]

/-- Splitter behind `str.split()` with no separator: accumulate the current
token (reversed) and emit it at each whitespace run or at the end. -/
def pySplitWSAux : List Char → List Char → List String
  | acc, [] => if acc.isEmpty then [] else [String.mk acc.reverse]
  | acc, c :: cs =>
      if c.isWhitespace then
        if acc.isEmpty then pySplitWSAux [] cs
        else String.mk acc.reverse :: pySplitWSAux [] cs
      else pySplitWSAux (c :: acc) cs

/-- Model of `briefing_text.split()`: split on whitespace runs, discarding empty
tokens. -/
def pySplitWS (s : String) : List String :=
  pySplitWSAux [] s.toList

/-- A regex word character (ASCII): letter, digit or underscore. -/
def isWordChar (c : Char) : Bool := c.isAlphanum || c == '_'

/-- Strips `kw` off the front of `cs` when it is a prefix, returning the
remainder. -/
def stripFront : List Char → List Char → Option (List Char)
  | [], cs => some cs
  | _ :: _, [] => none
  | k :: ks, c :: cs => if c == k then stripFront ks cs else none

/-- A `\b` word boundary next to the match: satisfied at the ends of the
text or against a non-word character. -/
def boundaryAt : Option Char → Bool
  | none => true
  | some c => ! isWordChar c

/-- Counts the positions in the text where `kw` occurs flanked by word
boundaries; `prev` is the character just before the current position.  For an
all-letter keyword such matches cannot overlap, so this equals the count of
the non-overlapping `re.finditer` scan. -/
def countOccAux (kw : List Char) : Option Char → List Char → Nat
  | _, [] => 0
  | prev, c :: cs =>
      let here :=
        match stripFront kw (c :: cs) with
        | some rest => if boundaryAt prev && boundaryAt rest.head? then 1 else 0
        | none => 0
      here + countOccAux kw (some c) cs

/-- Occurrences of pattern `\b kw \b` in `text.lower()`, as counted over
`re.finditer`; `str.lower()` acts characterwise on the ASCII texts in
scope. -/
def countKeyword (text kw : String) : Nat :=
  countOccAux kw.toList none (text.toList.map Char.toLower)

/-- The quantity `word_count = len(briefing_text.split())`. -/
def wordCount (text : String) : Nat := (pySplitWS text).length

/-- The `keyword_counts` mapping: every vocabulary keyword paired with its
count, in the fixed vocabulary order (the Counter is filled in that
insertion order). -/
def keywordCounts (text : String) : List (String × Nat) :=
  expected_keywords.map (fun kw => (kw, countKeyword text kw))

/-- The quantity `total_keyword_frequency = sum(keyword_counts.values())`. -/
def totalKeywordFrequency (text : String) : Nat :=
  ((keywordCounts text).map Prod.snd).sum

/-- The quantity `normalized_keyword_score`, with the division guarded on a positive word
count. -/
def normalizedKeywordScore (text : String) : Rat :=
  if wordCount text > 0
  then (totalKeywordFrequency text : Rat) / (wordCount text : Rat)
  else 0

/-- The quantity `unique_keywords_found`: how many vocabulary keywords occur at least
once. -/
def uniqueKeywordsFound (text : String) : Nat :=
  ((keywordCounts text).filter (fun p => decide (0 < p.2))).length

/-- The quantity `diversity_score = (unique_keywords_found / 10) * 100`. -/
def diversityScore (text : String) : Rat :=
  ((uniqueKeywordsFound text : Rat) / (expected_keywords.length : Rat)) * 100

/-- The quantity `composite_thematic_score = normalized * 50 + diversity * 0.5`. -/
def compositeThematicScore (text : String) : Rat :=
  normalizedKeywordScore text * 50 + diversityScore text * (1 / 2)

/-- The classification guard: both thresholds must hold. -/
def isHighIntensity (text : String) : Bool :=
  decide (compositeThematicScore text > 30 ∧
          normalizedKeywordScore text > 2 / 100)

/-- The snippet `briefing_text[:100] + "..."` when the text exceeds 100 characters,
otherwise the text itself. -/
def snippetOf (s : String) : String :=
  if s.length > 100 then s.take 100 ++ "..." else s

/-- One per-record analysis result, with the fields
`_process_single_briefing` assembles. -/
structure ScoreResult where
  briefing_id : Option String
  date : Option String
  briefing_text_snippet : String
  key_metrics : Option Rat
  avg_key_metric : Rat
  keyword_counts : List (String × Nat)
  total_keyword_frequency : Nat
  word_count : Nat
  normalized_keyword_score : Rat
  unique_keywords_found : Nat
  diversity_score : Rat
  composite_thematic_score : Rat
  thematic_intensity : String
  recommendation : String
  deriving DecidableEq, Repr

/-- Model of `_process_single_briefing`.  On validated input `briefing_text` is
always present (the `getD` default is unreachable) and a truthy
`key_metrics` always parses (the inner `getD` default is unreachable). -/
def processSingleBriefing (r : Record) (avg : Rat) : ScoreResult :=
  let text := r.briefing_text.getD ""
  { briefing_id := r.briefing_id
    date := r.date
    briefing_text_snippet := snippetOf text
    key_metrics :=
      match r.key_metrics with
      | some v => if v.truthy then some (v.pyFloat.getD 0) else none
      | none => none
    avg_key_metric := avg
    keyword_counts := keywordCounts text
    total_keyword_frequency := totalKeywordFrequency text
    word_count := wordCount text
    normalized_keyword_score := normalizedKeywordScore text
    unique_keywords_found := uniqueKeywordsFound text
    diversity_score := diversityScore text
    composite_thematic_score := compositeThematicScore text
    thematic_intensity := if isHighIntensity text then "High" else "Moderate"
    recommendation :=
      if isHighIntensity text then "Focus on strategic growth and risk mitigation."
      else "Review the investor briefing for additional insights." }

/-- Test `"key_metrics" in r and r["key_metrics"]`: the filter of
`records_with_key_metrics`. -/
def recHasMetric (r : Record) : Bool :=
  match r.key_metrics with
  | some v => v.truthy
  | none => false

/-- Value of `float(r["key_metrics"])` for a record already known to carry a truthy
metric (the default is unreachable on validated input). -/
def recMetricRat (r : Record) : Rat :=
  ((r.key_metrics.getD (Value.num 0)).pyFloat).getD 0

/-- The cross-record aggregate of `process_briefings`: the mean of the
metrics over the records that supplied one, and 0 when none did. -/
def avgKeyMetric (rs : List Record) : Rat :=
  let withM := rs.filter recHasMetric
  if withM.isEmpty then 0
  else (withM.map recMetricRat).sum / (withM.length : Rat)

/-- Model of `process_briefings` up to rendering: the aggregate is computed once over
the whole batch, then every record is scored with that same value. -/
def processBriefings (rs : List Record) : List ScoreResult :=
  rs.map (fun r => processSingleBriefing r (avgKeyMetric rs))

/-- The gating in `main`: validation always runs; the Scorer runs only when
the overall flag is true. -/
def runPipeline (rs : List Record) : Bool × List Diag × Option (List ScoreResult) :=
  let v := validateData rs
  (v.1, v.2, if v.1 then some (processBriefings rs) else none)

/-- Whether a diagnostic names the `key_metrics` field. -/
def mentionsKeyMetrics : Diag → Bool
  | .missing_field _ _ => false
  | .invalid_format _ f => f == "key_metrics"
  | .invalid_type _ f => f == "key_metrics"

/-- A record missing `briefing_id` whose date value is malformed. -/
def recNoIdBadDate : Record :=
  { briefing_id := none, date := some "13-13-13",
    briefing_text := some "text", key_metrics := none }

/-- A fully-populated record with `key_metrics = "-5"`. -/
def recNegMetric : Record :=
  { briefing_id := some "B1", date := some "2023-07-11",
    briefing_text := some "text", key_metrics := some (Value.str "-5") }

/-- A fully-populated record with `key_metrics = "abc"`. -/
def recAbcMetric : Record :=
  { briefing_id := some "B2", date := some "2023-07-11",
    briefing_text := some "text", key_metrics := some (Value.str "abc") }

/-- A fully-populated record without a `key_metrics` field. -/
def recNoMetric : Record :=
  { briefing_id := some "B3", date := some "2023-07-11",
    briefing_text := some "text", key_metrics := none }

/-- A record carrying only an unparseable `key_metrics`, every required
field absent. -/
def recOnlyMetricAbc : Record :=
  { briefing_id := none, date := none, briefing_text := none,
    key_metrics := some (Value.str "abc") }

/-- A valid record whose text is the worked example "growth growth RISK". -/
def recGrowthText : Record :=
  { briefing_id := some "B4", date := some "2023-07-11",
    briefing_text := some "growth growth RISK", key_metrics := none }

/-- A record whose briefing text is the empty string. -/
def recEmptyText : Record :=
  { briefing_id := some "B5", date := some "2023-07-11",
    briefing_text := some "", key_metrics := none }

/-- A record whose briefing text is all whitespace. -/
def recSpacesText : Record :=
  { briefing_id := some "B6", date := some "2023-07-11",
    briefing_text := some "   ", key_metrics := none }

/-- A valid record with metric 96. -/
def recMetric96 : Record :=
  { briefing_id := some "B7", date := some "2023-07-11",
    briefing_text := some "alpha", key_metrics := some (Value.num 96) }

/-- A valid record with metric 94. -/
def recMetric94 : Record :=
  { briefing_id := some "B8", date := some "2023-07-12",
    briefing_text := some "beta", key_metrics := some (Value.num 94) }

/-- A valid record with metric 92. -/
def recMetric92 : Record :=
  { briefing_id := some "B9", date := some "2023-07-13",
    briefing_text := some "gamma", key_metrics := some (Value.num 92) }

/-- The three-record batch of the avg_key_metric example. -/
def metricBatch : List Record := [recMetric96, recMetric94, recMetric92]

/-- A record whose date has the right shape but is no calendar date. -/
def recBadCalDate : Record :=
  { briefing_id := some "B10", date := some "2023-13-01",
    briefing_text := some "text", key_metrics := none }

/-- A record whose date has the wrong shape. -/
def recBadShapeDate : Record :=
  { briefing_id := some "B11", date := some "07-11-2023",
    briefing_text := some "text", key_metrics := none }

/-- First record of the ordering example: bad date, unparseable metric. -/
def recOrdFirst : Record :=
  { briefing_id := some "B12", date := some "bad date",
    briefing_text := some "text", key_metrics := some (Value.str "abc") }

/-- Second record of the ordering example: bad date, negative metric. -/
def recOrdSecond : Record :=
  { briefing_id := some "B13", date := some "2023-13-01",
    briefing_text := some "text", key_metrics := some (Value.str "-5") }

/-- A record missing both `briefing_id` and `briefing_text`. -/
def recMissingIdText : Record :=
  { briefing_id := none, date := some "2023-07-11",
    briefing_text := none, key_metrics := none }

/-- A record whose `key_metrics` is the native number 0 (falsy). -/
def recZeroMetric : Record :=
  { briefing_id := some "B14", date := some "2023-07-11",
    briefing_text := some "text", key_metrics := some (Value.num 0) }

/-- A record whose `key_metrics` is the empty string (falsy). -/
def recEmptyStrMetric : Record :=
  { briefing_id := some "B15", date := some "2023-07-11",
    briefing_text := some "text", key_metrics := some (Value.str "") }

/-- Claim C2 (confirmed): the overall validity flag returned by
`validate_data` is true exactly when the diagnostic list is empty, and the
pipeline runs the Scorer only on a batch with no diagnostics — when any
diagnostic exists the scored output is `none`, never a partial scoring of
the valid records. -/
theorem validator_flag_iff_no_diagnostics_and_scorer_gating (rs : List Record) :
    ((validateData rs).1 = true ↔ (validateData rs).2 = []) ∧
    (runPipeline rs).2.2
      = (if (validateData rs).2.isEmpty then some (processBriefings rs) else none) := by
  constructor
  · simp [validateData]
  · rfl

/-- Claim C8 (confirmed): date validation is the two-layer check
regex-shape-then-calendar-parse, either failing yielding `invalid_format`;
it accepts 2023-07-11 and rejects both 2023-13-01 (right shape, no calendar
date) and 07-11-2023 (wrong shape). -/
theorem validator_date_two_layers (s : String) :
    isValidDate s = (dateRegexMatch s && strptimeYmdOk s) ∧
    isValidDate "2023-07-11" = true ∧
    dateRegexMatch "2023-13-01" = true ∧
    isValidDate "2023-13-01" = false ∧
    dateRegexMatch "07-11-2023" = false ∧
    isValidDate "07-11-2023" = false ∧
    validateRecord 1 recBadCalDate = [Diag.invalid_format 1 "date"] ∧
    validateRecord 1 recBadShapeDate = [Diag.invalid_format 1 "date"] := by
  refine ⟨?_, by decide, by decide, by decide, by decide, by decide, by decide, by decide⟩
  cases h : dateRegexMatch s <;> simp [isValidDate, h]

/-- Claim C9 (confirmed): diagnostics are emitted in record order and,
within one record, in the order date check then metric check after the
missing-fields check; several missing required fields are combined into a
single `missing_field` diagnostic listing them in the fixed order
briefing_id, date, briefing_text (a sublist of `requiredFields`). -/
theorem validator_diagnostic_order (rs : List Record) (i : Nat) (r : Record) :
    (validateData rs).2 = (enumFrom 1 rs).flatMap (fun p => validateRecord p.1 p.2) ∧
    List.Sublist (missingFields r) requiredFields ∧
    validateRecord i r
      = (if (missingFields r).isEmpty then dateDiag i r ++ metricDiag i r
         else [Diag.missing_field i (missingFields r)]) ∧
    (validateData [recOrdFirst, recOrdSecond]).2
      = [Diag.invalid_format 1 "date", Diag.invalid_type 1 "key_metrics",
         Diag.invalid_format 2 "date", Diag.invalid_format 2 "key_metrics"] ∧
    validateRecord 3 recMissingIdText
      = [Diag.missing_field 3 ["briefing_id", "briefing_text"]] := by
  exact ⟨rfl, List.filter_sublist _, rfl, by decide, by decide⟩

/-- Claim C1 (corrected, amended form): for every record, a non-empty set
of missing required fields short-circuits the whole rest of the record
check — the record receives exactly the single combined `missing_field`
diagnostic and neither the date nor the key_metrics check runs. -/
theorem validator_missing_required_shortcircuit (i : Nat) (r : Record)
    (h : (missingFields r).isEmpty = false) :
    validateRecord i r = [Diag.missing_field i (missingFields r)] := by
  simp [validateRecord, h]

/-- Witness for claim C1: the amended theorem applied to a concrete
record that is missing `briefing_id`. -/
theorem validator_missing_required_shortcircuit_witness :
    (missingFields recNoIdBadDate).isEmpty = false ∧
    validateRecord 1 recNoIdBadDate = [Diag.missing_field 1 (missingFields recNoIdBadDate)] :=
  ⟨by decide, validator_missing_required_shortcircuit 1 recNoIdBadDate (by decide)⟩

/-- Counterexample for claim C1 as stated: a record missing `briefing_id`
whose date value 13-13-13 is malformed receives only the `missing_field`
diagnostic; no `invalid_format` diagnostic for `date` is emitted, because
the validator `continue`s past the date check. -/
theorem validator_missing_id_suppresses_date :
    missingFields recNoIdBadDate = ["briefing_id"] ∧
    isValidDate "13-13-13" = false ∧
    validateRecord 1 recNoIdBadDate = [Diag.missing_field 1 ["briefing_id"]] ∧
    Diag.invalid_format 1 "date" ∉ validateRecord 1 recNoIdBadDate := by
  refine ⟨by decide, by decide, by decide, by decide⟩

/-- Claim C3 (corrected, amended form): for every record whose required
fields are all present and whose `key_metrics` is present and truthy, an
unparseable value yields `invalid_type`, a non-positive parse yields
`invalid_format`, and a positive parse yields no metric diagnostic; a
record with `key_metrics` absent never receives a key_metrics diagnostic.
In particular key_metrics -5 yields `invalid_format` and abc yields
`invalid_type`. -/
theorem validator_key_metrics_checks (i : Nat) (r : Record) (v : Value) (x : Rat)
    (hm : (missingFields r).isEmpty = true)
    (hv : r.key_metrics = some v) (ht : v.truthy = true) :
    (v.pyFloat = none →
        validateRecord i r = dateDiag i r ++ [Diag.invalid_type i "key_metrics"]) ∧
    (v.pyFloat = some x → x ≤ 0 →
        validateRecord i r = dateDiag i r ++ [Diag.invalid_format i "key_metrics"]) ∧
    (v.pyFloat = some x → 0 < x → validateRecord i r = dateDiag i r) ∧
    (∀ r2 : Record, r2.key_metrics = none →
        ∀ d ∈ validateRecord i r2, mentionsKeyMetrics d = false) ∧
    validateRecord 1 recNegMetric = [Diag.invalid_format 1 "key_metrics"] ∧
    validateRecord 1 recAbcMetric = [Diag.invalid_type 1 "key_metrics"] ∧
    validateRecord 1 recNoMetric = [] := by
  refine ⟨?_, ?_, ?_, ?_, by decide, by decide, by decide⟩
  · intro hpf
    simp [validateRecord, hm, metricDiag, hv, ht, hpf]
  · intro hpf hle
    simp [validateRecord, hm, metricDiag, hv, ht, hpf, hle]
  · intro hpf hlt
    simp [validateRecord, hm, metricDiag, hv, ht, hpf, not_le.mpr hlt]
  · intro r2 h2 d hd
    have hmd : metricDiag i r2 = [] := by simp [metricDiag, h2]
    simp only [validateRecord, hmd, List.append_nil] at hd
    split at hd
    · simp only [dateDiag] at hd
      split at hd
      · simp only [List.mem_singleton] at hd
        subst hd
        rfl
      · simp at hd
    · simp only [List.mem_singleton] at hd
      subst hd
      rfl

/-- Witness for claim C3: the amended theorem applied to the concrete
record with `key_metrics = "-5"`. -/
theorem validator_key_metrics_checks_witness :
    (missingFields recNegMetric).isEmpty = true ∧
    recNegMetric.key_metrics = some (Value.str "-5") ∧
    (Value.str "-5").truthy = true ∧
    (Value.str "-5").pyFloat = some (-5) ∧
    ((-5 : Rat) ≤ 0) ∧
    validateRecord 1 recNegMetric = dateDiag 1 recNegMetric ++ [Diag.invalid_format 1 "key_metrics"] :=
  ⟨by decide, rfl, by decide, by decide, by norm_num,
    (validator_key_metrics_checks 1 recNegMetric (Value.str "-5") (-5)
      (by decide) rfl (by decide)).2.1 (by decide) (by norm_num)⟩

/-- Counterexample for claim C3 as stated: a record carrying the present,
non-empty, unparseable `key_metrics = "abc"` but missing its required
fields gets no `invalid_type` diagnostic — the missing-fields check
short-circuits the metric check. -/
theorem validator_key_metrics_check_suppressed :
    recOnlyMetricAbc.key_metrics = some (Value.str "abc") ∧
    (Value.str "abc").truthy = true ∧
    (Value.str "abc").pyFloat = none ∧
    validateRecord 1 recOnlyMetricAbc
      = [Diag.missing_field 1 ["briefing_id", "date", "briefing_text"]] ∧
    Diag.invalid_type 1 "key_metrics" ∉ validateRecord 1 recOnlyMetricAbc := by
  refine ⟨rfl, by decide, by decide, by decide, by decide⟩

/-- Claim C10 (confirmed): a record whose `key_metrics` is present but
falsy (native 0 or the empty string) is treated as if the field were
absent: the validator emits no key_metrics diagnostic, the record is
excluded from the `avg_key_metric` mean, and its ScoreResult carries no
numeric metric. -/
theorem falsy_metric_treated_as_absent (i : Nat) (r : Record) (v : Value) (a : Rat)
    (hv : r.key_metrics = some v) (ht : v.truthy = false) :
    metricDiag i r = [] ∧
    recHasMetric r = false ∧
    (processSingleBriefing r a).key_metrics = none ∧
    validateRecord 1 recZeroMetric = [] ∧
    validateRecord 1 recEmptyStrMetric = [] ∧
    avgKeyMetric [recZeroMetric, recEmptyStrMetric, recMetric96] = 96 ∧
    (processBriefings [recZeroMetric, recEmptyStrMetric, recMetric96]).map
        ScoreResult.key_metrics = [none, none, some 96] := by
  have havg : avgKeyMetric [recZeroMetric, recEmptyStrMetric, recMetric96] = 96 := by
    have hf : [recZeroMetric, recEmptyStrMetric, recMetric96].filter recHasMetric
        = [recMetric96] := by decide
    have hmap : [recMetric96].map recMetricRat = [96] := by decide
    rw [avgKeyMetric, hf, hmap]
    norm_num
  refine ⟨?_, ?_, ?_, by decide, by decide, havg, ?_⟩
  · simp [metricDiag, hv, ht]
  · simp [recHasMetric, hv, ht]
  · simp [processSingleBriefing, hv, ht]
  · simp [processBriefings, processSingleBriefing, recZeroMetric, recEmptyStrMetric,
      recMetric96, Value.truthy, Value.pyFloat]

/-- Witness for claim C10: the theorem applied to the concrete record
whose `key_metrics` is the native number 0. -/
theorem falsy_metric_treated_as_absent_witness :
    recZeroMetric.key_metrics = some (Value.num 0) ∧
    (Value.num 0).truthy = false ∧
    metricDiag 1 recZeroMetric = [] ∧
    recHasMetric recZeroMetric = false ∧
    (processSingleBriefing recZeroMetric 0).key_metrics = none :=
  ⟨rfl, by decide, (falsy_metric_treated_as_absent 1 recZeroMetric (Value.num 0) 0 rfl (by decide)).1,
    (falsy_metric_treated_as_absent 1 recZeroMetric (Value.num 0) 0 rfl (by decide)).2.1,
    (falsy_metric_treated_as_absent 1 recZeroMetric (Value.num 0) 0 rfl (by decide)).2.2.1⟩

theorem growth_norm_eval : normalizedKeywordScore "growth growth RISK" = 1 := by
  have h1 : totalKeywordFrequency "growth growth RISK" = 3 := by decide
  have h2 : wordCount "growth growth RISK" = 3 := by decide
  rw [normalizedKeywordScore, h1, h2]
  norm_num

theorem growth_div_eval : diversityScore "growth growth RISK" = 20 := by
  have h1 : uniqueKeywordsFound "growth growth RISK" = 2 := by decide
  have h2 : expected_keywords.length = 10 := by decide
  rw [diversityScore, h1, h2]
  norm_num

theorem growth_comp_eval : compositeThematicScore "growth growth RISK" = 60 := by
  rw [compositeThematicScore, growth_norm_eval, growth_div_eval]
  norm_num

theorem growth_high_eval : isHighIntensity "growth growth RISK" = true := by
  rw [isHighIntensity, growth_comp_eval, growth_norm_eval]
  simp only [decide_eq_true_eq]
  norm_num

theorem psb_intensity (r : Record) (a : Rat) :
    (processSingleBriefing r a).thematic_intensity
      = (if isHighIntensity (r.briefing_text.getD "") then "High" else "Moderate") := rfl

theorem psb_recommendation (r : Record) (a : Rat) :
    (processSingleBriefing r a).recommendation
      = (if isHighIntensity (r.briefing_text.getD "")
         then "Focus on strategic growth and risk mitigation."
         else "Review the investor briefing for additional insights.") := rfl

theorem isHigh_iff (t : String) :
    isHighIntensity t = true
      ↔ (compositeThematicScore t > 30 ∧ normalizedKeywordScore t > 2 / 100) := by
  simp [isHighIntensity]

/-- Claim C4 (confirmed): for every scored record the composite thematic
score is normalized_keyword_score * 50 + diversity_score * 0.5, and the
intensity is High with the fixed strategic-growth recommendation exactly
when composite > 30 and normalized > 0.02 both hold, otherwise Moderate
with the fixed review recommendation; for the text "growth growth RISK"
the composite score is 60 and the intensity is High. -/
theorem scorer_composite_formula_and_threshold (r : Record) (a : Rat) :
    (processSingleBriefing r a).composite_thematic_score
      = (processSingleBriefing r a).normalized_keyword_score * 50
        + (processSingleBriefing r a).diversity_score * (1 / 2) ∧
    (((processSingleBriefing r a).thematic_intensity = "High" ∧
      (processSingleBriefing r a).recommendation
        = "Focus on strategic growth and risk mitigation.")
      ↔ ((processSingleBriefing r a).composite_thematic_score > 30 ∧
         (processSingleBriefing r a).normalized_keyword_score > 2 / 100)) ∧
    (((processSingleBriefing r a).thematic_intensity = "Moderate" ∧
      (processSingleBriefing r a).recommendation
        = "Review the investor briefing for additional insights.")
      ↔ ¬ ((processSingleBriefing r a).composite_thematic_score > 30 ∧
           (processSingleBriefing r a).normalized_keyword_score > 2 / 100)) ∧
    (processSingleBriefing recGrowthText 0).composite_thematic_score = 60 ∧
    (processSingleBriefing recGrowthText 0).thematic_intensity = "High" := by
  refine ⟨rfl, ?_, ?_, growth_comp_eval, ?_⟩
  · rw [psb_intensity, psb_recommendation]
    by_cases hh : isHighIntensity (r.briefing_text.getD "") = true
    · rw [if_pos hh, if_pos hh]
      exact iff_of_true ⟨rfl, rfl⟩ ((isHigh_iff _).mp hh)
    · rw [if_neg hh, if_neg hh]
      refine iff_of_false ?_ ?_
      · rintro ⟨h1, -⟩
        exact absurd h1 (by decide)
      · intro hcond
        exact hh ((isHigh_iff _).mpr hcond)
  · rw [psb_intensity, psb_recommendation]
    by_cases hh : isHighIntensity (r.briefing_text.getD "") = true
    · rw [if_pos hh, if_pos hh]
      refine iff_of_false ?_ ?_
      · rintro ⟨h1, -⟩
        exact absurd h1 (by decide)
      · intro hnot
        exact hnot ((isHigh_iff _).mp hh)
    · rw [if_neg hh, if_neg hh]
      refine iff_of_true ⟨rfl, rfl⟩ ?_
      intro hcond
      exact hh ((isHigh_iff _).mpr hcond)
  · show (if isHighIntensity "growth growth RISK" then "High" else "Moderate") = "High"
    rw [growth_high_eval]
    rfl

/-- Claim C5 (confirmed): keyword counting is case-insensitive whole-word
matching (Growth counts for growth, growthful does not), the counts mapping
always lists all 10 vocabulary keywords in the fixed order, and
total_keyword_frequency is the sum of the 10 counts; for
"growth growth RISK" the counts are growth=2, risk=1, others 0, total 3,
unique 2, diversity 20. -/
theorem scorer_keyword_counting (r : Record) (a : Rat) :
    ((processSingleBriefing r a).keyword_counts.map Prod.fst = expected_keywords) ∧
    ((processSingleBriefing r a).total_keyword_frequency
      = ((processSingleBriefing r a).keyword_counts.map Prod.snd).sum) ∧
    countKeyword "Growth" "growth" = 1 ∧
    countKeyword "growthful" "growth" = 0 ∧
    (processSingleBriefing recGrowthText 0).keyword_counts
      = [("growth", 2), ("risk", 1), ("innovation", 0), ("market", 0),
         ("confidence", 0), ("investment", 0), ("strategic", 0), ("opportunity", 0),
         ("challenges", 0), ("expansion", 0)] ∧
    (processSingleBriefing recGrowthText 0).total_keyword_frequency = 3 ∧
    (processSingleBriefing recGrowthText 0).unique_keywords_found = 2 ∧
    (processSingleBriefing recGrowthText 0).normalized_keyword_score = 1 ∧
    (processSingleBriefing recGrowthText 0).diversity_score = 20 := by
  refine ⟨?_, rfl, by decide, by decide, by decide, by decide, by decide,
    growth_norm_eval, growth_div_eval⟩
  show (keywordCounts (r.briefing_text.getD "")).map Prod.fst = expected_keywords
  rw [keywordCounts, List.map_map]
  show expected_keywords.map (fun kw => kw) = expected_keywords
  exact List.map_id' expected_keywords

theorem avgKeyMetric_eq (rs : List Record) :
    avgKeyMetric rs
      = (if (rs.filter recHasMetric).isEmpty then 0
         else ((rs.filter recHasMetric).map recMetricRat).sum
              / ((rs.filter recHasMetric).length : Rat)) := rfl

/-- Claim C6 (confirmed): `avg_key_metric` is the arithmetic mean of the
metrics over exactly the records that supplied one, 0 when none did, and
the identical batch-wide value is attached to every ScoreResult; for
metrics [96, 94, 92] it is 94 on all three results. -/
theorem scorer_avg_key_metric (rs : List Record) :
    avgKeyMetric rs
      = (if (rs.filter recHasMetric).isEmpty then 0
         else ((rs.filter recHasMetric).map recMetricRat).sum
              / ((rs.filter recHasMetric).length : Rat)) ∧
    (processBriefings rs).map ScoreResult.avg_key_metric
      = List.replicate rs.length (avgKeyMetric rs) ∧
    avgKeyMetric metricBatch = 94 ∧
    (processBriefings metricBatch).map ScoreResult.avg_key_metric = [94, 94, 94] := by
  have hrep : ∀ l : List Record, (processBriefings l).map ScoreResult.avg_key_metric
      = List.replicate l.length (avgKeyMetric l) := by
    intro l
    rw [processBriefings, List.map_map]
    exact List.map_const' l (avgKeyMetric l)
  have havg : avgKeyMetric metricBatch = 94 := by
    have hf : metricBatch.filter recHasMetric = metricBatch := by decide
    have hm : metricBatch.map recMetricRat = [96, 94, 92] := by decide
    have h0 : metricBatch.isEmpty = false := by decide
    have hlen : metricBatch.length = 3 := by decide
    rw [avgKeyMetric_eq, hf, hm, h0, hlen]
    norm_num
  refine ⟨avgKeyMetric_eq rs, hrep rs, havg, ?_⟩
  rw [hrep metricBatch, havg]
  rfl

theorem empty_norm_eval : normalizedKeywordScore "" = 0 := by
  have hw : wordCount "" = 0 := by decide
  rw [normalizedKeywordScore, hw]
  norm_num

theorem empty_not_high : isHighIntensity "" = false := by
  have hu : uniqueKeywordsFound "" = 0 := by decide
  have hl : expected_keywords.length = 10 := by decide
  have hd : diversityScore "" = 0 := by
    rw [diversityScore, hu, hl]
    norm_num
  have hc : compositeThematicScore "" = 0 := by
    rw [compositeThematicScore, empty_norm_eval, hd]
    norm_num
  rw [isHighIntensity, hc, empty_norm_eval]
  simp only [decide_eq_false_iff_not]
  norm_num

theorem spaces_norm_eval : normalizedKeywordScore "   " = 0 := by
  have hw : wordCount "   " = 0 := by decide
  rw [normalizedKeywordScore, hw]
  norm_num

theorem spaces_not_high : isHighIntensity "   " = false := by
  have hu : uniqueKeywordsFound "   " = 0 := by decide
  have hl : expected_keywords.length = 10 := by decide
  have hd : diversityScore "   " = 0 := by
    rw [diversityScore, hu, hl]
    norm_num
  have hc : compositeThematicScore "   " = 0 := by
    rw [compositeThematicScore, spaces_norm_eval, hd]
    norm_num
  rw [isHighIntensity, hc, spaces_norm_eval]
  simp only [decide_eq_false_iff_not]
  norm_num

/-- Claim C7 (confirmed): `normalized_keyword_score` is
total_keyword_frequency / word_count when the word count is positive and 0
when it is 0, so an empty or all-whitespace briefing text yields score 0
and intensity Moderate with no division fault. -/
theorem scorer_normalized_guard (r : Record) (a : Rat) :
    (processSingleBriefing r a).normalized_keyword_score
      = (if (processSingleBriefing r a).word_count > 0
         then ((processSingleBriefing r a).total_keyword_frequency : Rat)
              / ((processSingleBriefing r a).word_count : Rat)
         else 0) ∧
    (processSingleBriefing recEmptyText 0).word_count = 0 ∧
    (processSingleBriefing recEmptyText 0).normalized_keyword_score = 0 ∧
    (processSingleBriefing recEmptyText 0).thematic_intensity = "Moderate" ∧
    (processSingleBriefing recSpacesText 0).word_count = 0 ∧
    (processSingleBriefing recSpacesText 0).normalized_keyword_score = 0 ∧
    (processSingleBriefing recSpacesText 0).thematic_intensity = "Moderate" := by
  refine ⟨rfl, by decide, empty_norm_eval, ?_, by decide, spaces_norm_eval, ?_⟩
  · show (if isHighIntensity "" then "High" else "Moderate") = "Moderate"
    rw [empty_not_high]
    rfl
  · show (if isHighIntensity "   " then "High" else "Moderate") = "Moderate"
    rw [spaces_not_high]
    rfl
